import Mathlib

/-!
Verification of the rpc-gateway health-checking core.

The definitions below are a shallow embedding of
`internal/proxy/healthchecker.go` and of the gateway composition root
(`rpcgateway.go`).  Network effects are made explicit: every probe or dial
is represented by its outcome (`Except RpcError Nat` / `Except RpcError Unit`)
passed as an argument, and the stateful `HealthChecker` methods become
functions from the checker state and the probe outcome to the new state.
-/

/-- Errors surfaced by the Go RPC client: a transport error embedding the
request URL (net/url `url.Error` with its `Op`, `URL` and message of the
underlying error), an error wrapped with a message (pkg/errors `Wrap`), or
any other error carrying only a message. -/
inductive RpcError where
  | urlError (op u msg : String) : RpcError
  | wrapped (msg : String) (cause : RpcError) : RpcError
  | other (msg : String) : RpcError
deriving Repr, DecidableEq

/-- The mutation performed in `checkBlockNumber` (healthchecker.go:93-96):
`errors.As(err, &urlErr)` finds the `url.Error` in the error chain, if any,
and the code clears its `URL` field in place, so both the logged and the
returned error lose the URL.  An error without a `url.Error` in its chain is
left unchanged. -/
def stripUrl : RpcError → RpcError
  | .urlError op _ msg => .urlError op "" msg
  | .wrapped m cause => .wrapped m (stripUrl cause)
  | .other m => .other m

/-- Per-target configuration (healthchecker.go, `HealthCheckerConfig`):
URL, name, probe interval, probe timeout, and the failure / success
thresholds.  Durations are opaque to the state machine and kept as `Nat`;
the thresholds are Go `uint` values, in-range `Nat` here since no
arithmetic is performed on them. -/
structure HealthCheckerConfig where
  url : String
  name : String
  interval : Nat
  timeout : Nat
  failureThreshold : Nat
  successThreshold : Nat
deriving Repr, DecidableEq

/-- The state of one `HealthChecker` (healthchecker.go:40-55): the
configuration plus the mutex-guarded fields `blockNumber`, `gasLimit` and
`isHealthy`.  The RPC and HTTP clients are modelled by passing each call's
outcome explicitly; `blockNumber` and `gasLimit` are Go `uint64` values
stored verbatim (no arithmetic), so they are kept as `Nat`. -/
structure HealthChecker where
  config : HealthCheckerConfig
  blockNumber : Nat
  gasLimit : Nat
  isHealthy : Bool
deriving Repr, DecidableEq

/-- Outcome of one RPC call as seen by the checker: an error, or the decoded
`uint64` value. -/
abbrev CallResult := Except RpcError Nat

/-- `NewHealthChecker` (healthchecker.go:57-80): dials the RPC endpoint; on
dial failure the error is returned and no checker is built; otherwise the
checker starts with `isHealthy: true` and Go zero values for the numeric
fields. -/
def NewHealthChecker (config : HealthCheckerConfig) (dialResult : Except RpcError Unit) :
    Except RpcError HealthChecker :=
  match dialResult with
  | .error e => .error e
  | .ok _ => .ok { config := config, blockNumber := 0, gasLimit := 0, isHealthy := true }

/-- Log records emitted by `checkBlockNumber` (healthchecker.go:97,101). -/
inductive LogEntry where
  | errorCouldNotFetchBlockNumber (e : RpcError)
  | infoFetchBlockNumberCompleted (blockNumber : Nat)
deriving Repr, DecidableEq

/-- `checkBlockNumber` (healthchecker.go:86-104): on error the URL embedded
in a `url.Error` is cleared in place before the error is logged, and the
(stripped) error is returned with result 0; on success the block number is
logged and returned with no error.  The function returns the call result
paired with the log records it emits. -/
def checkBlockNumber (callResult : CallResult) : CallResult × List LogEntry :=
  match callResult with
  | .error e =>
      let e := stripUrl e
      (.error e, [.errorCouldNotFetchBlockNumber e])
  | .ok n => (.ok n, [.infoFetchBlockNumberCompleted n])

/-- `checkAndSetBlockNumberHealth` (healthchecker.go:134-151): runs
`checkBlockNumber`; on error it returns without touching the state; on
success it stores the block number under the lock.  The health flag is
neither consulted nor written on this path, and no counter exists. -/
def checkAndSetBlockNumberHealth (h : HealthChecker) (callResult : CallResult) :
    HealthChecker :=
  match (checkBlockNumber callResult).1 with
  | .error _ => h
  | .ok n => { h with blockNumber := n }

/-- `checkAndSetGasLeftHealth` (healthchecker.go:154-168): on a failed
gas-left call it sets `isHealthy: false`; on a successful one it stores the
gas limit and sets `isHealthy: true`.  No threshold or counter is consulted. -/
def checkAndSetGasLeftHealth (h : HealthChecker) (callResult : CallResult) :
    HealthChecker :=
  match callResult with
  | .error _ => { h with isHealthy := false }
  | .ok g => { h with gasLimit := g, isHealthy := true }

/-- `CheckAndSetHealth` (healthchecker.go:127-132): spawns only
`checkAndSetBlockNumberHealth`; the call to `checkAndSetGasLeftHealth` is
commented out in the source ("Not being used for now"). -/
def CheckAndSetHealth (h : HealthChecker) (callResult : CallResult) : HealthChecker :=
  checkAndSetBlockNumberHealth h callResult

/-- The periodic probe loop of `Start` (healthchecker.go:170-184): one
`CheckAndSetHealth` per tick, modelled as a fold over the sequence of probe
outcomes delivered by the ticker. -/
def runProbes (h : HealthChecker) (probes : List CallResult) : HealthChecker :=
  probes.foldl CheckAndSetHealth h

/-- `IsHealthy` (healthchecker.go:191-196): synchronized read of the health
flag. -/
def HealthChecker.IsHealthy (h : HealthChecker) : Bool := h.isHealthy

/-- `BlockNumber` (healthchecker.go:198-203): synchronized read of the latest
committed block number. -/
def HealthChecker.BlockNumber (h : HealthChecker) : Nat := h.blockNumber

/-- `GasLimit` (healthchecker.go:205-210): synchronized read of the latest
committed gas limit. -/
def HealthChecker.GasLimit (h : HealthChecker) : Nat := h.gasLimit

/-- pkg/errors `Wrap` on the string messages used in `RPCGateway.Start`
(rpcgateway.go:33-45): `Wrap(nil, msg)` is nil, otherwise the message is
prefixed to the error text. -/
def wrapStartError (msg : String) : Option String → Option String
  | none => none
  | some e => some (msg ++ ": " ++ e)

/-- flowmatic.Do as used by `RPCGateway.Start` (library semantics: every task
runs to completion and the errors of all failing tasks are joined; nil when
none failed). -/
def flowmaticDo (results : List (Option String)) : Option (List String) :=
  match results.filterMap id with
  | [] => none
  | errs => some errs

/-- A constructed gateway (rpcgateway.go, `RPCGateway`): the health check
manager's checkers; the router, HTTP server and metrics server are external
collaborators. -/
structure RPCGateway where
  hcm : List HealthChecker
deriving Repr, DecidableEq

/-- `RPCGateway.Start` (rpcgateway.go:33-45): runs the health check manager
start, the HTTP server, and the metrics server through flowmatic.Do, wrapping
each task's error with its own message.  Each task's outcome (`none` for
success) is passed in explicitly. -/
def RPCGateway.Start (hcmResult serverResult metricsResult : Option String) :
    Option (List String) :=
  flowmaticDo
    [wrapStartError "failed to start health check manager" hcmResult,
     wrapStartError "failed to start rpc-gateway" serverResult,
     wrapStartError "failed to start metrics server" metricsResult]

/-- Modelled from the spec: `NewHealthCheckManager` (internal/proxy
healthcheckmanager.go, not under src/) builds one `HealthChecker` per
configured target, and "one construction failure for any one target ...
fails the whole manager's construction".  Each target is its configuration
paired with its dial outcome. -/
def NewHealthCheckManager :
    List (HealthCheckerConfig × Except RpcError Unit) → Except RpcError (List HealthChecker)
  | [] => .ok []
  | t :: ts =>
    match NewHealthChecker t.1 t.2 with
    | .error e => .error e
    | .ok hc =>
      match NewHealthCheckManager ts with
      | .error e => .error e
      | .ok hcs => .ok (hc :: hcs)

/-- `NewRPCGateway` (rpcgateway.go:61-123): builds the health check manager
and then the proxy; an error from either aborts construction with a wrapped
error and no gateway.  The proxy construction outcome is passed in
explicitly. -/
def NewRPCGateway (targets : List (HealthCheckerConfig × Except RpcError Unit))
    (proxyResult : Except RpcError Unit) : Except RpcError RPCGateway :=
  match NewHealthCheckManager targets with
  | .error e => .error (.wrapped "healthcheckmanager failed" e)
  | .ok hcm =>
    match proxyResult with
    | .error e => .error (.wrapped "proxy failed" e)
    | .ok _ => .ok { hcm := hcm }

/-- A sample configuration with FailureThreshold 3 and SuccessThreshold 2. -/
def sampleConfig : HealthCheckerConfig :=
  { url := "http://node.example", name := "primary", interval := 5, timeout := 2,
    failureThreshold := 3, successThreshold := 2 }

/-- The checker `NewHealthChecker` builds from `sampleConfig` when the dial
succeeds. -/
def freshChecker : HealthChecker :=
  { config := sampleConfig, blockNumber := 0, gasLimit := 0, isHealthy := true }

/-- One periodic probe cycle never changes the health flag. -/
theorem checkAndSetHealth_isHealthy (h : HealthChecker) (r : CallResult) :
    (CheckAndSetHealth h r).isHealthy = h.isHealthy := by
  cases r <;> rfl

/-- The periodic probe loop never changes the health flag. -/
theorem runProbes_isHealthy (probes : List CallResult) (h : HealthChecker) :
    (runProbes h probes).isHealthy = h.isHealthy := by
  induction probes generalizing h with
  | nil => rfl
  | cons p ps ih =>
    have hstep : runProbes h (p :: ps) = runProbes (CheckAndSetHealth h p) ps := rfl
    rw [hstep, ih, checkAndSetHealth_isHealthy]

/-- Claim C1: evaluation at the failing input.  With FailureThreshold 3, a
freshly constructed Healthy checker that suffers three consecutive failed
block-number probes through the periodic probe path is still Healthy: the
periodic path never consults the threshold and never updates the health flag,
contradicting the claimed Healthy-to-Unhealthy transition after
FailureThreshold consecutive failures. -/
theorem C1_failure_threshold_not_enforced :
    NewHealthChecker sampleConfig (.ok ()) = .ok freshChecker ∧
    sampleConfig.failureThreshold = 3 ∧
    (runProbes freshChecker
        (List.replicate 3 (.error (.other "connection refused")))).IsHealthy = true :=
  ⟨rfl, rfl, rfl⟩

/-- Claim C2: through the periodic probe loop the health flag is never
modified — for any freshly constructed checker and any sequence of
block-number probe outcomes, `IsHealthy` still returns its initial value
`true` after every probe cycle. -/
theorem C2_periodic_loop_never_modifies_health (cfg : HealthCheckerConfig)
    (hc : HealthChecker) (probes : List CallResult)
    (hnew : NewHealthChecker cfg (.ok ()) = .ok hc) :
    (runProbes hc probes).IsHealthy = true := by
  have hinit : hc.isHealthy = true := by
    simp only [NewHealthChecker, Except.ok.injEq] at hnew
    rw [← hnew]
  rw [HealthChecker.IsHealthy, runProbes_isHealthy, hinit]

/-- Claim C2 witness: the fresh sample checker stays Healthy after a mixed
success / failure probe sequence. -/
theorem C2_periodic_loop_never_modifies_health_witness :
    (runProbes freshChecker [.ok 7, .error (.other "timeout exceeded")]).IsHealthy = true :=
  C2_periodic_loop_never_modifies_health sampleConfig freshChecker
    [.ok 7, .error (.other "timeout exceeded")] rfl

/-- Claim C3: evaluation at the failing input.  With SuccessThreshold 2, a
checker made Unhealthy by a failed gas-left probe stays Unhealthy after two
consecutive successful block-number probes: the periodic path never consults
SuccessThreshold and never writes the health flag, contradicting the claimed
Unhealthy-to-Healthy transition after SuccessThreshold consecutive successes. -/
theorem C3_success_threshold_not_enforced :
    (checkAndSetGasLeftHealth freshChecker (.error (.other "eth call failed"))).IsHealthy
      = false ∧
    sampleConfig.successThreshold = 2 ∧
    (runProbes (checkAndSetGasLeftHealth freshChecker (.error (.other "eth call failed")))
        (List.replicate 2 (.ok 100))).IsHealthy = false :=
  ⟨rfl, rfl, rfl⟩

/-- Claim C4: the gas-left update flips health on a single probe: one failed
gas-left probe sets the flag to false, and one successful probe sets it to
true and stores the gas limit — for every starting state and configuration,
hence regardless of FailureThreshold and SuccessThreshold, which this path
never consults. -/
theorem C4_gas_left_single_probe_flips_health (h : HealthChecker) (e : RpcError) (g : Nat) :
    (checkAndSetGasLeftHealth h (.error e)).IsHealthy = false ∧
    (checkAndSetGasLeftHealth h (.ok g)).IsHealthy = true ∧
    (checkAndSetGasLeftHealth h (.ok g)).GasLimit = g :=
  ⟨rfl, rfl, rfl⟩

/-- Claim C5: a freshly constructed HealthChecker starts Healthy — whenever
`NewHealthChecker` succeeds, `IsHealthy` of the returned checker is true
before any probe runs. -/
theorem C5_new_checker_starts_healthy (cfg : HealthCheckerConfig)
    (d : Except RpcError Unit) (hc : HealthChecker)
    (hnew : NewHealthChecker cfg d = .ok hc) :
    hc.IsHealthy = true := by
  cases d with
  | error e => exact absurd hnew (by simp [NewHealthChecker])
  | ok u =>
    simp only [NewHealthChecker, Except.ok.injEq] at hnew
    rw [HealthChecker.IsHealthy, ← hnew]

/-- Claim C5 witness: the checker built from the sample configuration on a
successful dial reports Healthy. -/
theorem C5_new_checker_starts_healthy_witness : freshChecker.IsHealthy = true :=
  C5_new_checker_starts_healthy sampleConfig (.ok ()) freshChecker rfl

/-- Claim C6: every successful block-number probe returning `n` stores `n`,
which `BlockNumber` then reports — for every starting state, so independently
of any health consideration in that cycle. -/
theorem C6_success_records_block_number (h : HealthChecker) (n : Nat) :
    (checkAndSetBlockNumberHealth h (.ok n)).BlockNumber = n := rfl

/-- Claim C7: a failed block-number probe leaves the checker's observable
state entirely unchanged — the state after the probe is the state before it,
so `BlockNumber`, `GasLimit` and `IsHealthy` keep their prior values. -/
theorem C7_failed_probe_leaves_state_unchanged (h : HealthChecker) (e : RpcError) :
    checkAndSetBlockNumberHealth h (.error e) = h := rfl

/-- Claim C8: on a transport `url.Error` the embedded URL is cleared before
the error is logged, and the same stripped error is returned to the caller;
on a successful probe the parsed block number is returned with no error. -/
theorem C8_url_stripped_before_logging (op u msg : String) (n : Nat) :
    checkBlockNumber (.error (.urlError op u msg)) =
      (.error (.urlError op "" msg),
        [.errorCouldNotFetchBlockNumber (.urlError op "" msg)]) ∧
    checkBlockNumber (.ok n) = (.ok n, [.infoFetchBlockNumberCompleted n]) :=
  ⟨rfl, rfl⟩

/-- Claim C9: `Start` aggregates — it returns nil exactly when all three
tasks succeeded, and whenever a task fails its wrapped error appears in the
aggregate regardless of the other tasks' outcomes, so no failure
short-circuits the others. -/
theorem C9_start_aggregates_all_errors (h s m : Option String) :
    (RPCGateway.Start h s m = none ↔ h = none ∧ s = none ∧ m = none) ∧
    (∀ e, h = some e → ∃ l, RPCGateway.Start h s m = some l ∧
      ("failed to start health check manager: " ++ e) ∈ l) ∧
    (∀ e, s = some e → ∃ l, RPCGateway.Start h s m = some l ∧
      ("failed to start rpc-gateway: " ++ e) ∈ l) ∧
    (∀ e, m = some e → ∃ l, RPCGateway.Start h s m = some l ∧
      ("failed to start metrics server: " ++ e) ∈ l) := by
  cases h <;> cases s <;> cases m <;>
    simp [RPCGateway.Start, flowmaticDo, wrapStartError, List.filterMap]

/-- Claim C9 witness: with the health check manager failing and the other two
tasks succeeding, `Start` returns an aggregate containing the wrapped manager
error. -/
theorem C9_start_aggregates_all_errors_witness :
    ∃ l, RPCGateway.Start (some "dial tcp refused") none none = some l ∧
      ("failed to start health check manager: " ++ "dial tcp refused") ∈ l :=
  (C9_start_aggregates_all_errors (some "dial tcp refused") none none).2.1
    "dial tcp refused" rfl

/-- Claim C10: if any configured target's dial fails, that target's
`NewHealthChecker` fails, the whole manager's construction fails, and
`NewRPCGateway` returns an error and no gateway. -/
theorem C10_target_dial_failure_fails_gateway
    (targets : List (HealthCheckerConfig × Except RpcError Unit))
    (proxyResult : Except RpcError Unit) (cfg : HealthCheckerConfig) (e : RpcError)
    (hmem : (cfg, Except.error e) ∈ targets) :
    ∃ err, NewRPCGateway targets proxyResult = .error err := by
  have hmgr : ∃ e0, NewHealthCheckManager targets = .error e0 := by
    induction targets with
    | nil => cases hmem
    | cons t ts ih =>
      rcases List.mem_cons.mp hmem with hEq | hMem
      · refine ⟨e, ?_⟩
        rw [← hEq]
        rfl
      · cases ht : NewHealthChecker t.1 t.2 with
        | error e0 => exact ⟨e0, by simp [NewHealthCheckManager, ht]⟩
        | ok hc =>
          obtain ⟨e0, h0⟩ := ih hMem
          exact ⟨e0, by simp [NewHealthCheckManager, ht, h0]⟩
  obtain ⟨e0, h0⟩ := hmgr
  exact ⟨.wrapped "healthcheckmanager failed" e0, by simp [NewRPCGateway, h0]⟩

/-- Claim C10 witness: a single target whose dial fails makes `NewRPCGateway`
return an error. -/
theorem C10_target_dial_failure_fails_gateway_witness :
    ∃ err, NewRPCGateway [(sampleConfig, .error (.other "dial failed"))] (.ok ())
      = .error err :=
  C10_target_dial_failure_fails_gateway
    [(sampleConfig, .error (.other "dial failed"))] (.ok ())
    sampleConfig (.other "dial failed") (by simp)
